import Mathlib

/-!
Shallow embedding of `src/tritiumcan-smoltcp/src/tcp.rs`: the per-connection
TCP session (`Server`) of the tritiumcan CAN-over-TCP bridge.

The smoltcp TCP socket is the external stream-transport collaborator.  It is
represented abstractly by a `Socket` state holding the readiness predicates
the server consults (`is_open`, `is_listening`, the CloseWait check,
`can_send`, `can_recv`) together with outcome oracles chosen by the
environment (success of each buffered send in order, a possible receive
failure, the queued receive bytes), plus `tx_log`, the sequence of records
the transport has accepted, which is the observable send history.

Types and constants of the `tritiumcan` crate itself (the wire layout of
`Header`/`Frame`/`Packet`, `Frame::from_frame`, `PORT`, `PROTOCOL_VERSION`,
`HEARTBEAT_INTERVAL`) are repository code not present in the sources here;
they are modelled from the spec, and each such definition says so.

Machine integers are modelled as `Nat` with explicit `% 256` where a value
is stored in a byte.  Time (`Instant`) is a `Nat` of abstract units;
`now - last_heartbeat` uses truncated subtraction, matching the unsigned
duration the code compares against the heartbeat interval.
-/

namespace Tritium

/-- Modelled from the spec: the fixed service port (`tritiumcan::PORT`).
The spec fixes no numeric value; no claim depends on it. -/
def PORT : Nat := 4876

/-- Modelled from the spec: the one-byte protocol version constant
(`tritiumcan::PROTOCOL_VERSION`); the value follows the spec's worked
example (`version=1`). -/
def PROTOCOL_VERSION : Nat := 1

/-- Modelled from the spec: the fixed heartbeat interval
(`tritiumcan::HEARTBEAT_INTERVAL`), in abstract time units.  The spec fixes
no numeric value; no claim depends on it. -/
def HEARTBEAT_INTERVAL : Nat := 1000

/-- Little-endian bytes of a `u16`. -/
def u16le (n : Nat) : List Nat := [n % 256, n / 256 % 256]

/-- Little-endian bytes of a `u32`. -/
def u32le (n : Nat) : List Nat :=
  [n % 256, n / 256 % 256, n / 65536 % 256, n / 16777216 % 256]

/-- Read back a little-endian `u32` from the first four bytes. -/
def u32le_get (b : List Nat) : Nat :=
  b.getD 0 0 + 256 * b.getD 1 0 + 65536 * b.getD 2 0 + 16777216 * b.getD 3 0

/-- Modelled from the spec: the fixed-width identity header
(`tritiumcan::datagram::Header`): `version:u8`, `busNumber:u8`,
`clientIdentifier:u32`, no padding — six bytes. -/
structure Header where
  version : Nat
  bus_number : Nat
  client_identifier : Nat
deriving DecidableEq

/-- Wire encoding of a `Header` (zerocopy `as_bytes`). -/
def Header.as_bytes (h : Header) : List Nat :=
  [h.version % 256, h.bus_number % 256] ++ u32le h.client_identifier

/-- Modelled from the spec: one CAN-frame record
(`tritiumcan::datagram::Frame`): `arbitrationId:u32`, `flags:u8`, `dlc:u8`,
`data:[u8;8]`, no padding — fourteen bytes. -/
structure Frame where
  arbitration_id : Nat
  flags : Nat
  dlc : Nat
  data : List Nat
deriving DecidableEq

/-- Normalise a data payload to the fixed 8-byte slot. -/
def pad8 (d : List Nat) : List Nat :=
  (d.map (· % 256)).take 8 ++ List.replicate (8 - d.length) 0

/-- Wire encoding of a `Frame` (zerocopy `as_bytes`): fourteen bytes. -/
def Frame.as_bytes (f : Frame) : List Nat :=
  u32le f.arbitration_id ++ [f.flags % 256, f.dlc % 256] ++ pad8 f.data

/-- `size_of::<Frame>()`: the fixed Frame record width. -/
def frame_size : Nat := 14

/-- Width of the identity packet `Packet = Header ++ zero-filled Frame`. -/
def packet_size : Nat := 20

/-- Decode a `Frame` from its wire bytes (the in-place zerocopy read of
`recv_frame`). -/
def Frame.decode (b : List Nat) : Frame :=
  { arbitration_id := u32le_get b
    flags := b.getD 4 0
    dlc := b.getD 5 0
    data := pad8 ((b.drop 6).take 8) }

/-- Kind of CAN identifier of an externally supplied frame. -/
inductive IdKind where
  | standard
  | extended
deriving DecidableEq

/-- An externally supplied CAN frame, the `impl embedded_can::Frame` input
of `send_frame`: identifier kind, raw identifier, remote flag, data bytes. -/
structure CanFrame where
  kind : IdKind
  id : Nat
  remote : Bool
  data : List Nat
deriving DecidableEq

/-- Modelled from the spec: a CAN frame is representable in the fixed wire
layout when its identifier fits its kind's CAN range and it carries at most
eight data bytes. -/
def CanFrame.representable (f : CanFrame) : Bool :=
  (match f.kind with
   | .standard => decide (f.id < 2048)
   | .extended => decide (f.id < 536870912)) && decide (f.data.length ≤ 8)

/-- Modelled from the spec: `tritiumcan::datagram::Frame::from_frame`, the
construction step of `send_frame`.  `none` is the construction-time failure
(the `unwrap` panic) for a frame that cannot be represented in the fixed
wire layout. -/
def Frame.from_frame (f : CanFrame) : Option Frame :=
  if f.representable then
    some { arbitration_id := f.id
           flags := (match f.kind with | .standard => 0 | .extended => 1) +
             (if f.remote then 2 else 0)
           dlc := f.data.length
           data := f.data ++ List.replicate (8 - f.data.length) 0 }
  else none

/-- `smoltcp::socket::tcp::SendError`. -/
inductive SendError where
  | invalid_state
deriving DecidableEq

/-- `smoltcp::socket::tcp::RecvError`. -/
inductive RecvError where
  | invalid_state
  | finished
deriving DecidableEq

/-- Result of `Socket::send_slice`: number of bytes enqueued, or an error. -/
inductive SendSliceResult where
  | ok (n : Nat)
  | error (e : SendError)
deriving DecidableEq

def SendSliceResult.is_ok : SendSliceResult → Bool
  | .ok _ => true
  | .error _ => false

/-- Result of `Socket::recv_slice`: bytes dequeued, or an error. -/
inductive RecvSliceResult where
  | ok (n : Nat) (bytes : List Nat)
  | error (e : RecvError)
deriving DecidableEq

/-- The stream-transport collaborator (the smoltcp TCP socket), abstracted
to the interface the server uses.  Readiness flags and the send/receive
outcome oracles are chosen by the environment; `tx_log` records every
record a successful buffered send has enqueued, newest last. -/
structure Socket where
  is_open : Bool
  is_listening : Bool
  close_wait : Bool
  can_send : Bool
  may_recv : Bool
  rx_data : List Nat
  recv_fail : Option RecvError
  send_outcomes : List Bool
  listen_ok : Bool
  tx_log : List (List Nat)
deriving DecidableEq

/-- `Socket::can_recv`: receivable iff receiving is allowed and bytes are
queued. -/
def Socket.can_recv (s : Socket) : Bool :=
  s.may_recv && !s.rx_data.isEmpty

/-- Whether the next buffered send on `s` will succeed: the transport is
writable and the next entry of the send-outcome oracle is a success. -/
def send_ok (s : Socket) : Bool :=
  s.can_send && s.send_outcomes.headD false

/-- `Socket::send_slice`: buffered best-effort send.  Fails when the
transport is not writable; otherwise the next oracle entry decides the
outcome, and a success appends the record to `tx_log`. -/
def Socket.send_slice (s : Socket) (b : List Nat) : Socket × SendSliceResult :=
  if s.can_send then
    match s.send_outcomes with
    | true :: rest =>
        ({ s with send_outcomes := rest, tx_log := s.tx_log ++ [b] },
         .ok b.length)
    | false :: rest => ({ s with send_outcomes := rest }, .error .invalid_state)
    | [] => (s, .error .invalid_state)
  else (s, .error .invalid_state)

/-- `Socket::recv_slice` into a buffer of width `w`: dequeues
`min w (queued bytes)` and returns them, unless the failure oracle fires. -/
def Socket.recv_slice (s : Socket) (w : Nat) : Socket × RecvSliceResult :=
  match s.recv_fail with
  | some e => (s, .error e)
  | none =>
      ({ s with rx_data := s.rx_data.drop (min w s.rx_data.length) },
       .ok (min w s.rx_data.length) (s.rx_data.take (min w s.rx_data.length)))

/-- The per-connection session state of `tcp.rs` (`struct Server`), minus
the socket handle: configuration plus `last_heartbeat`, `tx_start`,
`rx_start`. -/
structure Server where
  mac_addr : List Nat
  bus_number : Nat
  data_rate : Nat
  last_heartbeat : Nat
  tx_start : Bool
  rx_start : Bool
deriving DecidableEq

/-- Bytes of the identity packet `poll` sends: a header built from the
configured protocol version, the session's bus number and a client
identifier of zero, followed by a zero-filled frame slot
(`Packet { header, frame: Frame::new_zeroed() }.as_bytes()`). -/
def identity_bytes (srv : Server) : List Nat :=
  Header.as_bytes
      { version := PROTOCOL_VERSION
        bus_number := srv.bus_number
        client_identifier := 0 } ++
    List.replicate frame_size 0

/-- Modelled from the spec: the heartbeat record
(`Packet::new_heartbeat`, of which `write_heartbeat` sends only the frame
slot `packet.frame.0`): mac address, bus number and data rate at fixed
offsets, padded to the frame width — fourteen bytes. -/
def heartbeat_bytes (srv : Server) : List Nat :=
  ((srv.mac_addr.map (· % 256)).take 6 ++
      List.replicate (6 - srv.mac_addr.length) 0) ++
    [srv.bus_number % 256] ++ u16le srv.data_rate ++ List.replicate 5 0

/-- Result of the heartbeat / frame send operations
(`Result<(), SendError>`). -/
inductive SendResult where
  | ok
  | error (e : SendError)
deriving DecidableEq

/-- `Server::write_heartbeat`: send the heartbeat record's frame slot. -/
def Server.write_heartbeat (srv : Server) (sock : Socket) :
    Socket × SendResult :=
  ((sock.send_slice (heartbeat_bytes srv)).1,
   match (sock.send_slice (heartbeat_bytes srv)).2 with
   | .ok _ => .ok
   | .error e => .error e)

/-- The identity-send step of `poll`: when `tx_start` is still false,
attempt the buffered send of the identity packet and set `tx_start` only
when it succeeded (`if socket.send_slice(packet.as_bytes()).is_ok()`). -/
def Server.poll_identity (srv : Server) (sock : Socket) : Server × Socket :=
  if srv.tx_start then (srv, sock)
  else
    ((if (sock.send_slice (identity_bytes srv)).2.is_ok then
        { srv with tx_start := true }
      else srv),
     (sock.send_slice (identity_bytes srv)).1)

/-- The cadence-heartbeat step of `poll`: when strictly more than
`HEARTBEAT_INTERVAL` has elapsed since `last_heartbeat`, attempt a
heartbeat send; update `last_heartbeat` to `now` only on success.  The
returned Bool records whether a send was attempted. -/
def Server.poll_heartbeat (srv : Server) (sock : Socket) (now : Nat) :
    Server × Socket × Bool :=
  if HEARTBEAT_INTERVAL < now - srv.last_heartbeat then
    ((if (srv.write_heartbeat sock).2 = SendResult.ok then
        { srv with last_heartbeat := now }
      else srv),
     (srv.write_heartbeat sock).1, true)
  else (srv, sock, false)

/-- The passive-listen step of `poll`: when the socket is neither open nor
listening, attempt `listen(PORT)`; the `listen_ok` oracle decides whether
the bind succeeds. -/
def listen_step (sock : Socket) : Socket :=
  if !sock.is_open && !sock.is_listening && sock.listen_ok then
    { sock with is_open := true, is_listening := true }
  else sock

/-- Observable actions of one `poll` call. -/
structure PollTrace where
  listen_attempted : Bool
  close_requested : Bool
  identity_attempted : Bool
  heartbeat_attempted : Bool
deriving DecidableEq

/-- `Server::poll`: re-arm listening if needed; on peer half-close
(CloseWait) request local close, clear both handshake flags and return
immediately; otherwise, while writable, run the identity step and then the
cadence-heartbeat step. -/
def Server.poll (srv : Server) (sock : Socket) (now : Nat) :
    Server × Socket × PollTrace :=
  if (listen_step sock).close_wait then
    ({ srv with tx_start := false, rx_start := false }, listen_step sock,
     ⟨!sock.is_open && !sock.is_listening, true, false, false⟩)
  else if (listen_step sock).can_send then
    (((srv.poll_identity (listen_step sock)).1.poll_heartbeat
        (srv.poll_identity (listen_step sock)).2 now).1,
     ((srv.poll_identity (listen_step sock)).1.poll_heartbeat
        (srv.poll_identity (listen_step sock)).2 now).2.1,
     ⟨!sock.is_open && !sock.is_listening, false, !srv.tx_start,
      ((srv.poll_identity (listen_step sock)).1.poll_heartbeat
        (srv.poll_identity (listen_step sock)).2 now).2.2⟩)
  else (srv, listen_step sock,
        ⟨!sock.is_open && !sock.is_listening, false, false, false⟩)

/-- `Server::send_heartbeat`: the caller-invoked heartbeat send; just
`write_heartbeat`, with no readiness or handshake guard and no
`last_heartbeat` update. -/
def Server.send_heartbeat (srv : Server) (sock : Socket) :
    Server × Socket × SendResult :=
  (srv, (srv.write_heartbeat sock).1, (srv.write_heartbeat sock).2)

/-- `Server::send_frame`.  `none` in the result position is the
construction-time `unwrap` panic of `Frame::from_frame`, which happens
before any transport access.  Mirrors the source's fall-through: after a
successful buffered send the function still ends in
`Err(SendError::InvalidState)`. -/
def Server.send_frame (srv : Server) (sock : Socket) (f : CanFrame) :
    Server × Socket × Option SendResult :=
  match Frame.from_frame f with
  | none => (srv, sock, none)
  | some frame =>
      if sock.can_send && srv.tx_start then
        ((srv, (sock.send_slice frame.as_bytes).1,
          match (sock.send_slice frame.as_bytes).2 with
          | .ok _ => some (.error .invalid_state)
          | .error e => some (.error e)))
      else (srv, sock, some (.error .invalid_state))

/-- Whether a `send_frame` result is a success (`Ok(())`). -/
def returned_ok : Option SendResult → Bool
  | some .ok => true
  | _ => false

/-- Result of `Server::recv_frame` (`Result<Option<Frame>, RecvError>`). -/
inductive RecvResult where
  | ok (f : Option Frame)
  | error (e : RecvError)
deriving DecidableEq

/-- `Server::recv_frame`: nothing receivable returns `Ok(None)`; on first
receivability with `rx_start` still false, a priming `recv_slice` into a
30-byte buffer whose result is discarded, then `rx_start := true`; then one
frame-width read, decoded only when exactly `frame_size` bytes arrived. -/
def Server.recv_frame (srv : Server) (sock : Socket) :
    Server × Socket × RecvResult :=
  if sock.can_recv then
    (fun (srv1 : Server) (sock1 : Socket) =>
      match (sock1.recv_slice frame_size).2 with
      | .error e => (srv1, (sock1.recv_slice frame_size).1, .error e)
      | .ok n bytes =>
          (srv1, (sock1.recv_slice frame_size).1,
           if n = frame_size then RecvResult.ok (some (Frame.decode bytes))
           else RecvResult.ok none))
      (if srv.rx_start then srv else { srv with rx_start := true })
      (if srv.rx_start then sock else (sock.recv_slice 30).1)
  else (srv, sock, .ok none)

/-- Per-step transport condition chosen by the environment: everything of a
`Socket` except the server-observable send history `tx_log`. -/
structure Stim where
  is_open : Bool
  is_listening : Bool
  close_wait : Bool
  can_send : Bool
  may_recv : Bool
  rx_data : List Nat
  recv_fail : Option RecvError
  send_outcomes : List Bool
  listen_ok : Bool
deriving DecidableEq

/-- Install the environment-chosen condition, keeping the send history. -/
def apply_stim (sock : Socket) (st : Stim) : Socket :=
  { is_open := st.is_open
    is_listening := st.is_listening
    close_wait := st.close_wait
    can_send := st.can_send
    may_recv := st.may_recv
    rx_data := st.rx_data
    recv_fail := st.recv_fail
    send_outcomes := st.send_outcomes
    listen_ok := st.listen_ok
    tx_log := sock.tx_log }

/-- One operation of the server's public interface. -/
inductive Op where
  | poll (now : Nat)
  | send_heartbeat
  | send_frame (f : CanFrame)
  | recv_frame
deriving DecidableEq

def Op.is_poll : Op → Bool
  | .poll _ => true
  | _ => false

/-- Run one operation under an environment-chosen transport condition. -/
def run_step (p : Server × Socket) (sop : Stim × Op) : Server × Socket :=
  match sop.2 with
  | .poll now =>
      ((p.1.poll (apply_stim p.2 sop.1) now).1,
       (p.1.poll (apply_stim p.2 sop.1) now).2.1)
  | .send_heartbeat =>
      ((p.1.send_heartbeat (apply_stim p.2 sop.1)).1,
       (p.1.send_heartbeat (apply_stim p.2 sop.1)).2.1)
  | .send_frame f =>
      ((p.1.send_frame (apply_stim p.2 sop.1) f).1,
       (p.1.send_frame (apply_stim p.2 sop.1) f).2.1)
  | .recv_frame =>
      ((p.1.recv_frame (apply_stim p.2 sop.1)).1,
       (p.1.recv_frame (apply_stim p.2 sop.1)).2.1)

/-- Run a whole interaction: a sequence of operations, each under its own
environment-chosen transport condition. -/
def run_trace (p : Server × Socket) (steps : List (Stim × Op)) :
    Server × Socket :=
  steps.foldl run_step p

/-- Number of identity packets in a send history.  The identity packet is
the only record of width `packet_size` the server ever sends (heartbeat
records and frame records have width `frame_size`). -/
def ident_count (log : List (List Nat)) : Nat :=
  (log.filter (fun r => r.length == packet_size)).length

/-- Potential measure for the exactly-once identity argument. -/
def ident_measure (srv : Server) (sock : Socket) : Nat :=
  ident_count sock.tx_log + cond srv.tx_start 0 1

/-- A concrete session configuration used by witnesses. -/
def srv_base : Server :=
  { mac_addr := [170, 187, 204, 221, 238, 255]
    bus_number := 3
    data_rate := 500
    last_heartbeat := 0
    tx_start := false
    rx_start := false }

/-- A concrete connected, writable socket used by witnesses. -/
def sock_base : Socket :=
  { is_open := true
    is_listening := false
    close_wait := false
    can_send := true
    may_recv := true
    rx_data := []
    recv_fail := none
    send_outcomes := [true]
    listen_ok := true
    tx_log := [] }

/-- A concrete per-step transport condition used by witnesses. -/
def stim_base : Stim :=
  { is_open := true
    is_listening := false
    close_wait := false
    can_send := true
    may_recv := false
    rx_data := []
    recv_fail := none
    send_outcomes := [true]
    listen_ok := true }

/-- `srv_base` after a completed transmit handshake. -/
def srv_tx : Server := { srv_base with tx_start := true }

/-- `srv_base` after the receive-side priming discard. -/
def srv_rx : Server := { srv_base with rx_start := true }

/-- A representable CAN frame: standard identifier 1, two data bytes. -/
def c1_frame : CanFrame :=
  { kind := .standard, id := 1, remote := false, data := [17, 34] }

/-- A non-representable CAN frame: nine data bytes. -/
def bad_frame : CanFrame :=
  { kind := .standard, id := 1, remote := false, data := List.replicate 9 0 }

/-- A receivable socket with 44 queued zero bytes (a 30-byte greeting worth
of data followed by one full frame width). -/
def c2_sock : Socket := { sock_base with rx_data := List.replicate 44 0 }

/-- A socket reporting peer half-close. -/
def c6_sock : Socket := { sock_base with close_wait := true }

/-- A closed, non-listening socket, for the re-listen step. -/
def c6_sock2 : Socket := { sock_base with is_open := false }

/-- A receivable socket with 10 queued bytes (less than one frame width). -/
def c7_sock : Socket := { sock_base with rx_data := List.replicate 10 0 }

/-- A one-step interaction used by the trace witness. -/
def c5_steps : List (Stim × Op) := [(stim_base, Op.poll 5)]

theorem pad8_length (d : List Nat) : (pad8 d).length = 8 := by
  simp [pad8]
  omega

theorem frame_as_bytes_length (f : Frame) : f.as_bytes.length = frame_size := by
  simp [Frame.as_bytes, u32le, frame_size, pad8]
  omega

theorem identity_bytes_length (srv : Server) :
    (identity_bytes srv).length = packet_size := by
  simp [identity_bytes, Header.as_bytes, u32le, frame_size, packet_size]

theorem heartbeat_bytes_length (srv : Server) :
    (heartbeat_bytes srv).length = frame_size := by
  simp [heartbeat_bytes, u16le, frame_size]
  omega

theorem send_slice_tx_log (s : Socket) (b : List Nat) :
    (s.send_slice b).1.tx_log =
      if send_ok s then s.tx_log ++ [b] else s.tx_log := by
  unfold Socket.send_slice send_ok
  cases hcs : s.can_send
  · simp [hcs]
  · cases ho : s.send_outcomes with
    | nil => simp [hcs, ho]
    | cons hd tl => cases hd <;> simp [hcs, ho]

theorem send_slice_is_ok (s : Socket) (b : List Nat) :
    (s.send_slice b).2.is_ok = send_ok s := by
  unfold Socket.send_slice send_ok
  cases hcs : s.can_send
  · simp [hcs, SendSliceResult.is_ok]
  · cases ho : s.send_outcomes with
    | nil => simp [hcs, ho, SendSliceResult.is_ok]
    | cons hd tl => cases hd <;> simp [hcs, ho, SendSliceResult.is_ok]

theorem send_slice_close_wait (s : Socket) (b : List Nat) :
    (s.send_slice b).1.close_wait = s.close_wait := by
  unfold Socket.send_slice
  cases hcs : s.can_send
  · simp [hcs]
  · cases ho : s.send_outcomes with
    | nil => simp [hcs, ho]
    | cons hd tl => cases hd <;> simp [hcs, ho]

theorem send_slice_can_send (s : Socket) (b : List Nat) :
    (s.send_slice b).1.can_send = s.can_send := by
  unfold Socket.send_slice
  cases hcs : s.can_send
  · simp [hcs]
  · cases ho : s.send_outcomes with
    | nil => simp [hcs, ho]
    | cons hd tl => cases hd <;> simp [hcs, ho]

theorem recv_slice_tx_log (s : Socket) (w : Nat) :
    (s.recv_slice w).1.tx_log = s.tx_log := by
  unfold Socket.recv_slice
  cases h : s.recv_fail <;> simp [h]

theorem list_drop_min (l : List Nat) (w : Nat) :
    l.drop (min w l.length) = l.drop w := by
  rcases le_total w l.length with h | h
  · rw [min_eq_left h]
  · rw [min_eq_right h, List.drop_length, Eq.comm, List.drop_eq_nil_iff]
    exact h

theorem list_take_min (l : List Nat) (w : Nat) :
    l.take (min w l.length) = l.take w := by
  rcases le_total w l.length with h | h
  · rw [min_eq_left h]
  · rw [min_eq_right h, List.take_length, Eq.comm, List.take_of_length_le h]

theorem recv_slice_eq (s : Socket) (w : Nat) (h : s.recv_fail = none) :
    s.recv_slice w =
      ({ s with rx_data := s.rx_data.drop w },
       .ok (min w s.rx_data.length) (s.rx_data.take w)) := by
  unfold Socket.recv_slice
  rw [h]
  simp [list_drop_min, list_take_min]

theorem ident_count_append (log : List (List Nat)) (r : List Nat) :
    ident_count (log ++ [r]) =
      ident_count log + (if r.length = packet_size then 1 else 0) := by
  unfold ident_count
  rw [List.filter_append]
  by_cases h : r.length = packet_size
  · simp [h]
  · simp [h]

theorem ident_count_append_frame (log : List (List Nat)) (r : List Nat)
    (h : r.length = frame_size) : ident_count (log ++ [r]) = ident_count log := by
  rw [ident_count_append, h]
  simp [frame_size, packet_size]

theorem listen_step_close_wait (sock : Socket) :
    (listen_step sock).close_wait = sock.close_wait := by
  unfold listen_step
  split <;> rfl

theorem listen_step_can_send (sock : Socket) :
    (listen_step sock).can_send = sock.can_send := by
  unfold listen_step
  split <;> rfl

theorem listen_step_tx_log (sock : Socket) :
    (listen_step sock).tx_log = sock.tx_log := by
  unfold listen_step
  split <;> rfl

theorem listen_step_send_outcomes (sock : Socket) :
    (listen_step sock).send_outcomes = sock.send_outcomes := by
  unfold listen_step
  split <;> rfl

theorem send_ok_listen_step (sock : Socket) :
    send_ok (listen_step sock) = send_ok sock := by
  unfold send_ok
  rw [listen_step_can_send, listen_step_send_outcomes]

theorem poll_identity_tx_log (srv : Server) (sock : Socket) :
    (srv.poll_identity sock).2.tx_log =
      if !srv.tx_start && send_ok sock then sock.tx_log ++ [identity_bytes srv]
      else sock.tx_log := by
  unfold Server.poll_identity
  cases ht : srv.tx_start
  · simp [ht, send_slice_tx_log]
  · simp [ht]

theorem poll_identity_tx_start (srv : Server) (sock : Socket) :
    (srv.poll_identity sock).1.tx_start = (srv.tx_start || send_ok sock) := by
  unfold Server.poll_identity
  cases ht : srv.tx_start
  · cases hso : send_ok sock <;> simp [ht, hso, send_slice_is_ok]
  · simp [ht]

theorem poll_identity_rx_start (srv : Server) (sock : Socket) :
    (srv.poll_identity sock).1.rx_start = srv.rx_start := by
  unfold Server.poll_identity
  cases ht : srv.tx_start
  · cases hso : send_ok sock <;> simp [ht, hso, send_slice_is_ok]
  · simp [ht]

theorem poll_identity_last_heartbeat (srv : Server) (sock : Socket) :
    (srv.poll_identity sock).1.last_heartbeat = srv.last_heartbeat := by
  unfold Server.poll_identity
  cases ht : srv.tx_start
  · cases hso : send_ok sock <;> simp [ht, hso, send_slice_is_ok]
  · simp [ht]

theorem write_heartbeat_tx_log (srv : Server) (sock : Socket) :
    (srv.write_heartbeat sock).1.tx_log =
      if send_ok sock then sock.tx_log ++ [heartbeat_bytes srv]
      else sock.tx_log := by
  unfold Server.write_heartbeat
  simp [send_slice_tx_log]

theorem write_heartbeat_snd (srv : Server) (sock : Socket) :
    (srv.write_heartbeat sock).2 =
      if send_ok sock then SendResult.ok
      else SendResult.error SendError.invalid_state := by
  unfold Server.write_heartbeat Socket.send_slice send_ok
  cases hcs : sock.can_send
  · simp [hcs]
  · cases ho : sock.send_outcomes with
    | nil => simp [hcs, ho]
    | cons hd tl => cases hd <;> simp [hcs, ho]

theorem poll_heartbeat_tx_start (srv : Server) (sock : Socket) (now : Nat) :
    (srv.poll_heartbeat sock now).1.tx_start = srv.tx_start := by
  unfold Server.poll_heartbeat
  split
  · split <;> rfl
  · rfl

theorem poll_heartbeat_rx_start (srv : Server) (sock : Socket) (now : Nat) :
    (srv.poll_heartbeat sock now).1.rx_start = srv.rx_start := by
  unfold Server.poll_heartbeat
  split
  · split <;> rfl
  · rfl

theorem poll_heartbeat_tx_log (srv : Server) (sock : Socket) (now : Nat) :
    (srv.poll_heartbeat sock now).2.1.tx_log = sock.tx_log ∨
    (srv.poll_heartbeat sock now).2.1.tx_log =
      sock.tx_log ++ [heartbeat_bytes srv] := by
  unfold Server.poll_heartbeat
  split
  · rw [show ∀ a b c, (Prod.mk a (Prod.mk b c)).2.1 = b from fun _ _ _ => rfl]
    rw [write_heartbeat_tx_log]
    cases hso : send_ok sock
    · left; simp
    · right; simp
  · left; rfl

theorem ident_measure_poll_identity (srv : Server) (sock : Socket) :
    ident_measure (srv.poll_identity sock).1 (srv.poll_identity sock).2 ≤
      ident_measure srv sock := by
  unfold ident_measure
  rw [poll_identity_tx_log, poll_identity_tx_start]
  cases ht : srv.tx_start
  · cases hso : send_ok sock
    · simp [hso]
    · simp [hso, ident_count_append, identity_bytes_length]
  · simp

theorem ident_measure_poll_heartbeat (srv : Server) (sock : Socket) (now : Nat) :
    ident_measure (srv.poll_heartbeat sock now).1
        (srv.poll_heartbeat sock now).2.1 ≤ ident_measure srv sock := by
  unfold ident_measure
  rw [poll_heartbeat_tx_start]
  rcases poll_heartbeat_tx_log srv sock now with h | h
  · rw [h]
  · rw [h, ident_count_append_frame _ _ (heartbeat_bytes_length srv)]

theorem ident_measure_poll (srv : Server) (sock : Socket) (now : Nat)
    (h : sock.close_wait = false) :
    ident_measure (srv.poll sock now).1 (srv.poll sock now).2.1 ≤
      ident_measure srv sock := by
  have hm : ident_measure srv (listen_step sock) = ident_measure srv sock := by
    unfold ident_measure
    rw [listen_step_tx_log]
  unfold Server.poll
  rw [listen_step_close_wait, h]
  simp only [Bool.false_eq_true, if_false]
  split
  · calc
      ident_measure
          ((srv.poll_identity (listen_step sock)).1.poll_heartbeat
            (srv.poll_identity (listen_step sock)).2 now).1
          ((srv.poll_identity (listen_step sock)).1.poll_heartbeat
            (srv.poll_identity (listen_step sock)).2 now).2.1 ≤
          ident_measure (srv.poll_identity (listen_step sock)).1
            (srv.poll_identity (listen_step sock)).2 :=
        ident_measure_poll_heartbeat _ _ _
      _ ≤ ident_measure srv (listen_step sock) :=
        ident_measure_poll_identity _ _
      _ = ident_measure srv sock := hm
  · exact le_of_eq hm

theorem apply_stim_tx_log (sock : Socket) (st : Stim) :
    (apply_stim sock st).tx_log = sock.tx_log := rfl

theorem apply_stim_close_wait (sock : Socket) (st : Stim) :
    (apply_stim sock st).close_wait = st.close_wait := rfl

theorem ident_measure_send_heartbeat (srv : Server) (sock : Socket) :
    ident_measure (srv.send_heartbeat sock).1 (srv.send_heartbeat sock).2.1 ≤
      ident_measure srv sock := by
  unfold Server.send_heartbeat ident_measure
  rw [show ∀ (a : Server) (b : Socket) (c : SendResult),
        (Prod.mk a (Prod.mk b c)).2.1 = b from fun _ _ _ => rfl]
  rw [write_heartbeat_tx_log]
  cases hso : send_ok sock
  · simp
  · simp [ident_count_append_frame _ _ (heartbeat_bytes_length srv)]

theorem ident_measure_send_frame (srv : Server) (sock : Socket) (f : CanFrame) :
    ident_measure (srv.send_frame sock f).1 (srv.send_frame sock f).2.1 ≤
      ident_measure srv sock := by
  unfold Server.send_frame
  cases hf : Frame.from_frame f with
  | none => exact le_refl _
  | some frame =>
      simp only []
      split
      · rcases hs : (sock.send_slice frame.as_bytes).2 with n | e <;>
        · simp only [hs, ident_measure]
          rw [send_slice_tx_log]
          cases hso : send_ok sock
          · simp
          · simp [ident_count_append_frame _ _ (frame_as_bytes_length frame)]
      · exact le_refl _

theorem recv_frame_fst_tx_start (srv : Server) (sock : Socket) :
    (srv.recv_frame sock).1.tx_start = srv.tx_start := by
  unfold Server.recv_frame
  split
  · cases hrx : srv.rx_start <;>
    · simp only [hrx]
      split <;> rfl
  · rfl

theorem recv_frame_snd_tx_log (srv : Server) (sock : Socket) :
    (srv.recv_frame sock).2.1.tx_log = sock.tx_log := by
  unfold Server.recv_frame
  split
  · cases hrx : srv.rx_start <;>
    · simp only [hrx]
      split <;> simp [recv_slice_tx_log]
  · rfl

theorem ident_measure_recv_frame (srv : Server) (sock : Socket) :
    ident_measure (srv.recv_frame sock).1 (srv.recv_frame sock).2.1 ≤
      ident_measure srv sock := by
  unfold ident_measure
  rw [recv_frame_fst_tx_start, recv_frame_snd_tx_log]

theorem ident_measure_run_step (p : Server × Socket) (st : Stim) (op : Op)
    (h : st.close_wait = false) :
    ident_measure (run_step p (st, op)).1 (run_step p (st, op)).2 ≤
      ident_measure p.1 p.2 := by
  have ha : ident_measure p.1 (apply_stim p.2 st) = ident_measure p.1 p.2 := by
    unfold ident_measure
    rw [apply_stim_tx_log]
  cases op with
  | poll now =>
      have hp := ident_measure_poll p.1 (apply_stim p.2 st) now
        (by rw [apply_stim_close_wait]; exact h)
      rw [ha] at hp
      exact hp
  | send_heartbeat =>
      have hp := ident_measure_send_heartbeat p.1 (apply_stim p.2 st)
      rw [ha] at hp
      exact hp
  | send_frame f =>
      have hp := ident_measure_send_frame p.1 (apply_stim p.2 st) f
      rw [ha] at hp
      exact hp
  | recv_frame =>
      have hp := ident_measure_recv_frame p.1 (apply_stim p.2 st)
      rw [ha] at hp
      exact hp

theorem ident_measure_run_trace (steps : List (Stim × Op))
    (p : Server × Socket) (h : ∀ s ∈ steps, s.1.close_wait = false) :
    ident_measure (run_trace p steps).1 (run_trace p steps).2 ≤
      ident_measure p.1 p.2 := by
  induction steps generalizing p with
  | nil => exact le_refl _
  | cons hd tl ih =>
      have h1 : hd.1.close_wait = false := h hd (by simp)
      have h2 : ∀ s ∈ tl, s.1.close_wait = false := fun s hs =>
        h s (List.mem_cons_of_mem _ hs)
      have hstep := ident_measure_run_step p hd.1 hd.2 h1
      have htl := ih (run_step p hd) h2
      have hrw : run_trace p (hd :: tl) = run_trace (run_step p hd) tl := rfl
      rw [hrw]
      exact le_trans htl hstep

theorem send_slice_is_listening (s : Socket) (b : List Nat) :
    (s.send_slice b).1.is_listening = s.is_listening := by
  unfold Socket.send_slice
  cases hcs : s.can_send
  · simp [hcs]
  · cases ho : s.send_outcomes with
    | nil => simp [hcs, ho]
    | cons hd tl => cases hd <;> simp [hcs, ho]

theorem poll_identity_is_listening (srv : Server) (sock : Socket) :
    (srv.poll_identity sock).2.is_listening = sock.is_listening := by
  unfold Server.poll_identity
  cases ht : srv.tx_start
  · simp [ht, send_slice_is_listening]
  · simp [ht]

theorem poll_heartbeat_is_listening (srv : Server) (sock : Socket) (now : Nat) :
    (srv.poll_heartbeat sock now).2.1.is_listening = sock.is_listening := by
  unfold Server.poll_heartbeat Server.write_heartbeat
  split
  · simp [send_slice_is_listening]
  · rfl

theorem poll_snd_is_listening (srv : Server) (sock : Socket) (now : Nat) :
    (srv.poll sock now).2.1.is_listening = (listen_step sock).is_listening := by
  unfold Server.poll
  split
  · rfl
  · split
    · rw [show ∀ (a : Server) (b : Socket) (c : PollTrace),
            (Prod.mk a (Prod.mk b c)).2.1 = b from fun _ _ _ => rfl]
      rw [poll_heartbeat_is_listening, poll_identity_is_listening]
    · rfl

theorem poll_trace_listen_attempted (srv : Server) (sock : Socket) (now : Nat) :
    (srv.poll sock now).2.2.listen_attempted =
      (!sock.is_open && !sock.is_listening) := by
  unfold Server.poll
  split
  · rfl
  · split <;> rfl

theorem listen_step_arms (sock : Socket) (h1 : sock.is_open = false)
    (h2 : sock.is_listening = false) (h3 : sock.listen_ok = true) :
    (listen_step sock).is_listening = true := by
  unfold listen_step
  simp [h1, h2, h3]

/-- C1: the claim says `send_frame` returns success exactly when the
transport is writable, `tx_start` is true and the buffered send succeeds.
The code contradicts it: at a concrete input where all three conditions
hold, the frame is enqueued (it appears in the transport's send history)
and yet the call still returns `Err(SendError::InvalidState)`; in fact no
input at all makes `send_frame` return success. -/
theorem c1_send_frame_success_still_errors :
    (srv_tx.send_frame sock_base c1_frame).2.1.tx_log =
        [Frame.as_bytes
          { arbitration_id := 1, flags := 0, dlc := 2
            data := [17, 34, 0, 0, 0, 0, 0, 0] }] ∧
    (srv_tx.send_frame sock_base c1_frame).2.2 =
        some (SendResult.error SendError.invalid_state) ∧
    ∀ (srv : Server) (sock : Socket) (f : CanFrame),
      returned_ok (srv.send_frame sock f).2.2 = false := by
  refine ⟨by decide, by decide, ?_⟩
  intro srv sock f
  unfold Server.send_frame
  cases hf : Frame.from_frame f with
  | none => rfl
  | some frame =>
      simp only []
      split
      · cases hs : (sock.send_slice frame.as_bytes).2 with
        | ok n => simp [hs, returned_ok]
        | error e => simp [hs, returned_ok]
      · rfl

/-- C6: when the transport reports peer half-close, `poll` requests the
local close, clears both handshake flags, and returns without attempting
an identity or heartbeat send (the send history is untouched); and any
`poll` call on a socket that is neither open nor listening attempts a
passive listen, which succeeds when the bind succeeds. -/
theorem c6_half_close_reset :
    ∀ (srv : Server) (sock : Socket) (now : Nat), sock.close_wait = true →
      ((srv.poll sock now).1.tx_start = false ∧
       (srv.poll sock now).1.rx_start = false ∧
       (srv.poll sock now).2.2.close_requested = true ∧
       (srv.poll sock now).2.2.identity_attempted = false ∧
       (srv.poll sock now).2.2.heartbeat_attempted = false ∧
       (srv.poll sock now).2.1.tx_log = sock.tx_log) ∧
      (∀ (srv2 : Server) (sock2 : Socket) (now2 : Nat),
        sock2.is_open = false → sock2.is_listening = false →
        (srv2.poll sock2 now2).2.2.listen_attempted = true ∧
        (sock2.listen_ok = true →
          (srv2.poll sock2 now2).2.1.is_listening = true)) := by
  intro srv sock now h
  constructor
  · have hcw : (listen_step sock).close_wait = true := by
      rw [listen_step_close_wait]; exact h
    unfold Server.poll
    rw [if_pos hcw]
    refine ⟨rfl, rfl, rfl, rfl, rfl, ?_⟩
    exact listen_step_tx_log sock
  · intro srv2 sock2 now2 h1 h2
    constructor
    · rw [poll_trace_listen_attempted, h1, h2]
      rfl
    · intro h3
      rw [poll_snd_is_listening]
      exact listen_step_arms sock2 h1 h2 h3

/-- C7: with `rx_start` already true, `recv_frame` returns no-frame as a
non-error when nothing is receivable; otherwise it reads one frame width,
consuming (and discarding, not failing on) a short read, and decoding the
bytes into a returned Frame exactly when a full frame width was queued. -/
theorem c7_recv_after_priming :
    ∀ (srv : Server) (sock : Socket), srv.rx_start = true →
      (sock.can_recv = false →
        srv.recv_frame sock = (srv, sock, RecvResult.ok none)) ∧
      (sock.can_recv = true → sock.recv_fail = none →
        srv.recv_frame sock =
          (srv, { sock with rx_data := sock.rx_data.drop frame_size },
           if frame_size ≤ sock.rx_data.length then
             RecvResult.ok (some (Frame.decode (sock.rx_data.take frame_size)))
           else RecvResult.ok none)) := by
  intro srv sock hrx
  constructor
  · intro h
    unfold Server.recv_frame
    rw [h]
    rfl
  · intro hcr hrf
    unfold Server.recv_frame
    rw [hcr]
    simp only [hrx, if_true, if_pos]
    rcases le_or_lt frame_size sock.rx_data.length with hl | hl
    · rw [recv_slice_eq _ _ hrf, min_eq_left hl]
      simp [hl]
    · rw [recv_slice_eq _ _ hrf, min_eq_right (le_of_lt hl)]
      have hne : sock.rx_data.length ≠ frame_size := ne_of_lt hl
      have hnl : ¬ frame_size ≤ sock.rx_data.length := not_le_of_lt hl
      simp [hne, hnl]

/-- C8: `send_frame` hits the construction-time `unwrap` failure exactly
for a frame that cannot be represented in the fixed wire layout, and it
does so before touching the transport (server and socket unchanged);
representable frames never fail construction. -/
theorem c8_construction_failure :
    ∀ (srv : Server) (sock : Socket) (f : CanFrame),
      ((srv.send_frame sock f).2.2 = none ↔ f.representable = false) ∧
      (f.representable = false → srv.send_frame sock f = (srv, sock, none)) ∧
      (f.representable = true → (Frame.from_frame f).isSome = true) := by
  intro srv sock f
  cases hr : f.representable
  · have hnone : Frame.from_frame f = none := by
      unfold Frame.from_frame
      simp [hr]
    refine ⟨?_, ?_, ?_⟩
    · unfold Server.send_frame
      rw [hnone]
      simp
    · intro _
      unfold Server.send_frame
      rw [hnone]
    · intro habs
      exact Bool.noConfusion habs
  · have hsome : ∃ fr, Frame.from_frame f = some fr := by
      unfold Frame.from_frame
      simp [hr]
    obtain ⟨fr, hfr⟩ := hsome
    have hnn : (srv.send_frame sock f).2.2 ≠ none := by
      unfold Server.send_frame
      rw [hfr]
      simp only []
      split
      · cases hs : (sock.send_slice fr.as_bytes).2 with
        | ok n => simp [hs]
        | error e => simp [hs]
      · simp
    refine ⟨?_, ?_, ?_⟩
    · simp [hnn]
    · intro habs
      exact Bool.noConfusion habs
    · intro _
      rw [hfr]
      rfl

/-- C8 witness: a nine-byte frame is not representable, and `send_frame`
fails at construction with no transport effect. -/
theorem c8_construction_failure_witness :
    srv_base.send_frame sock_base bad_frame = (srv_base, sock_base, none) :=
  (c8_construction_failure srv_base sock_base bad_frame).2.1 (by decide)

/-- C9: the caller-invoked `send_heartbeat` leaves the whole server state —
`last_heartbeat`, `tx_start`, `rx_start` — unchanged whether or not the
send succeeds, and when the cadence send of `poll` fires it drives the
transport identically and succeeds under exactly the same condition
(witnessed by `last_heartbeat` being updated iff `send_heartbeat` on the
same socket reports success). -/
theorem c9_send_heartbeat_effect :
    ∀ (srv : Server) (sock : Socket) (now : Nat),
      (srv.send_heartbeat sock).1 = srv ∧
      (HEARTBEAT_INTERVAL < now - srv.last_heartbeat →
        (srv.poll_heartbeat sock now).2.1 = (srv.send_heartbeat sock).2.1 ∧
        ((srv.poll_heartbeat sock now).1.last_heartbeat = now ↔
          (srv.send_heartbeat sock).2.2 = SendResult.ok)) := by
  intro srv sock now
  constructor
  · rfl
  · intro hel
    have hlt : srv.last_heartbeat < now := by
      have hHI : HEARTBEAT_INTERVAL = 1000 := rfl
      omega
    constructor
    · unfold Server.poll_heartbeat Server.send_heartbeat
      rw [if_pos hel]
    · unfold Server.poll_heartbeat Server.send_heartbeat
      rw [if_pos hel]
      cases hw : (srv.write_heartbeat sock).2 with
      | ok => simp [hw]
      | error e =>
          simp [hw]
          omega

/-- C9 witness: with more than an interval elapsed, the cadence send and
the explicit send drive the transport to the same state. -/
theorem c9_send_heartbeat_effect_witness :
    (srv_base.poll_heartbeat sock_base 2000).2.1 =
      (srv_base.send_heartbeat sock_base).2.1 :=
  ((c9_send_heartbeat_effect srv_base sock_base 2000).2 (by decide)).1

/-- C6 witness: a half-closed socket makes `poll` clear the transmit flag
and request local close. -/
theorem c6_half_close_reset_witness :
    (srv_base.poll c6_sock 0).1.tx_start = false ∧
    (srv_base.poll c6_sock 0).2.2.close_requested = true := by
  have h := c6_half_close_reset srv_base c6_sock 0 rfl
  exact ⟨h.1.1, h.1.2.2.1⟩

/-- C7 witness: a 10-byte (short) read is consumed and reported as
no-frame. -/
theorem c7_recv_after_priming_witness :
    srv_rx.recv_frame c7_sock =
      (srv_rx, { c7_sock with rx_data := [] }, RecvResult.ok none) := by
  have h := (c7_recv_after_priming srv_rx c7_sock rfl).2 rfl rfl
  exact h.trans (by decide)

theorem poll_writable_eq (srv : Server) (sock : Socket) (now : Nat)
    (h1 : sock.close_wait = false) (h2 : sock.can_send = true) :
    srv.poll sock now =
      (((srv.poll_identity (listen_step sock)).1.poll_heartbeat
          (srv.poll_identity (listen_step sock)).2 now).1,
       ((srv.poll_identity (listen_step sock)).1.poll_heartbeat
          (srv.poll_identity (listen_step sock)).2 now).2.1,
       ⟨!sock.is_open && !sock.is_listening, false, !srv.tx_start,
        ((srv.poll_identity (listen_step sock)).1.poll_heartbeat
          (srv.poll_identity (listen_step sock)).2 now).2.2⟩) := by
  have hcw : ¬((listen_step sock).close_wait = true) := by
    rw [listen_step_close_wait, h1]
    simp
  have hcs : (listen_step sock).can_send = true := by
    rw [listen_step_can_send]
    exact h2
  unfold Server.poll
  rw [if_neg hcw, if_pos hcs]

theorem poll_tx_log_no_send (srv : Server) (sock : Socket) (now : Nat)
    (h : sock.can_send = false) :
    (srv.poll sock now).2.1.tx_log = sock.tx_log := by
  unfold Server.poll
  split
  · exact listen_step_tx_log sock
  · split
    · rename_i hcs
      rw [listen_step_can_send, h] at hcs
      exact Bool.noConfusion hcs
    · exact listen_step_tx_log sock

theorem send_heartbeat_log_no_send (srv : Server) (sock : Socket)
    (h : sock.can_send = false) :
    (srv.send_heartbeat sock).2.1.tx_log = sock.tx_log := by
  have hso : send_ok sock = false := by
    unfold send_ok
    rw [h]
    rfl
  unfold Server.send_heartbeat
  rw [show ∀ (a : Server) (b : Socket) (c : SendResult),
        (Prod.mk a (Prod.mk b c)).2.1 = b from fun _ _ _ => rfl]
  rw [write_heartbeat_tx_log, hso]
  rfl

/-- C2 counterexample: with `rx_start` false and 44 bytes queued, the very
first receivable `recv_frame` call does not return "no frame available":
it discards 30 bytes (not one 14-byte frame width), then decodes and
returns a Frame from the same call, consuming all 44 bytes. -/
theorem c2_first_recv_counterexample :
    srv_base.rx_start = false ∧
    c2_sock.can_recv = true ∧
    (srv_base.recv_frame c2_sock).2.2 =
      RecvResult.ok (some
        { arbitration_id := 0, flags := 0, dlc := 0
          data := List.replicate 8 0 }) ∧
    (srv_base.recv_frame c2_sock).2.1.rx_data = [] := by
  refine ⟨rfl, rfl, by decide, by decide⟩

/-- C2 (amended): on the first receivable call with `rx_start` false, the
priming read consumes up to 30 bytes (the minimum of 30 and the queued
bytes), `rx_start` is set, and the call then proceeds with a normal
frame-width read, returning a decoded Frame when at least 44 bytes were
queued and "no frame available" otherwise. -/
theorem c2_priming_read_amended :
    ∀ (srv : Server) (sock : Socket),
      srv.rx_start = false → sock.can_recv = true → sock.recv_fail = none →
      srv.recv_frame sock =
        ({ srv with rx_start := true },
         { sock with rx_data := sock.rx_data.drop 44 },
         if 44 ≤ sock.rx_data.length then
           RecvResult.ok (some
             (Frame.decode ((sock.rx_data.drop 30).take frame_size)))
         else RecvResult.ok none) := by
  intro srv sock hrx hcr hrf
  have hrf1 :
      ({ sock with rx_data := sock.rx_data.drop 30 } : Socket).recv_fail =
        none := hrf
  unfold Server.recv_frame
  rw [hcr]
  simp only [hrx, Bool.false_eq_true, if_false]
  rw [recv_slice_eq sock 30 hrf]
  simp only []
  rw [recv_slice_eq _ frame_size hrf1]
  simp only [List.length_drop]
  rcases le_or_lt 44 sock.rx_data.length with hl | hl
  · have hmin : min frame_size (sock.rx_data.length - 30) = frame_size := by
      simp only [frame_size]
      omega
    have hdd : (sock.rx_data.drop 30).drop frame_size =
        sock.rx_data.drop 44 := by
      rw [List.drop_drop]
      norm_num [frame_size]
    rw [hmin, hdd]
    simp [hl]
  · have hmin : min frame_size (sock.rx_data.length - 30) ≠ frame_size := by
      simp only [frame_size]
      omega
    have hdd : (sock.rx_data.drop 30).drop frame_size =
        sock.rx_data.drop 44 := by
      rw [List.drop_drop]
      norm_num [frame_size]
    have h44 : ¬ 44 ≤ sock.rx_data.length := by omega
    rw [hdd]
    simp [hmin, h44]

/-- C2 (amended) witness: with exactly 44 zero bytes queued, the first call
discards 30 bytes, primes `rx_start`, and returns the decoded all-zero
frame. -/
theorem c2_priming_read_amended_witness :
    srv_base.recv_frame c2_sock =
      ({ srv_base with rx_start := true },
       { c2_sock with rx_data := [] },
       RecvResult.ok (some
         { arbitration_id := 0, flags := 0, dlc := 0
           data := List.replicate 8 0 })) := by
  have h := c2_priming_read_amended srv_base c2_sock rfl rfl rfl
  exact h.trans (by decide)

/-- C3 counterexample: `send_heartbeat` transmits a heartbeat record while
`tx_start` is still false — the handshake-sent condition does not guard
heartbeat transmission. -/
theorem c3_heartbeat_guard_counterexample :
    srv_base.tx_start = false ∧
    (srv_base.send_heartbeat sock_base).2.1.tx_log =
      [heartbeat_bytes srv_base] ∧
    (srv_base.send_heartbeat sock_base).1.tx_start = false := by
  refine ⟨rfl, by decide, rfl⟩

/-- C3 (amended): a heartbeat record is transmitted only while the
transport is writable — neither `poll` nor `send_heartbeat` grows the send
history otherwise — but the handshake flag does not guard it: whenever the
transport is writable and the buffered send succeeds, `send_heartbeat`
transmits the heartbeat record regardless of `tx_start`. -/
theorem c3_heartbeat_guard_amended :
    (∀ (srv : Server) (sock : Socket) (now : Nat),
        (srv.poll sock now).2.1.tx_log ≠ sock.tx_log →
          sock.can_send = true) ∧
    (∀ (srv : Server) (sock : Socket),
        (srv.send_heartbeat sock).2.1.tx_log ≠ sock.tx_log →
          sock.can_send = true) ∧
    (∀ (srv : Server) (sock : Socket), send_ok sock = true →
        (srv.send_heartbeat sock).2.1.tx_log =
          sock.tx_log ++ [heartbeat_bytes srv]) := by
  refine ⟨?_, ?_, ?_⟩
  · intro srv sock now h
    cases hcs : sock.can_send
    · exact absurd (poll_tx_log_no_send srv sock now hcs) h
    · rfl
  · intro srv sock h
    cases hcs : sock.can_send
    · exact absurd (send_heartbeat_log_no_send srv sock hcs) h
    · rfl
  · intro srv sock h
    unfold Server.send_heartbeat
    rw [show ∀ (a : Server) (b : Socket) (c : SendResult),
          (Prod.mk a (Prod.mk b c)).2.1 = b from fun _ _ _ => rfl]
    rw [write_heartbeat_tx_log, h]
    rfl

/-- C3 (amended) witness: a writable socket with a successful send oracle
receives the heartbeat record even though `tx_start` is false. -/
theorem c3_heartbeat_guard_amended_witness :
    (srv_base.send_heartbeat sock_base).2.1.tx_log =
      sock_base.tx_log ++ [heartbeat_bytes srv_base] :=
  c3_heartbeat_guard_amended.2.2 srv_base sock_base (by decide)

/-- C4 counterexample: with the transport writable, a successful send
available, and exactly `HEARTBEAT_INTERVAL` elapsed, `poll` attempts no
heartbeat: the comparison in the code is strict. -/
theorem c4_heartbeat_cadence_counterexample :
    1000 - srv_tx.last_heartbeat = HEARTBEAT_INTERVAL ∧
    sock_base.can_send = true ∧
    sock_base.close_wait = false ∧
    send_ok sock_base = true ∧
    (srv_tx.poll sock_base 1000).2.2.heartbeat_attempted = false ∧
    (srv_tx.poll sock_base 1000).1.last_heartbeat = srv_tx.last_heartbeat ∧
    (srv_tx.poll sock_base 1000).2.1.tx_log = sock_base.tx_log := by
  refine ⟨rfl, rfl, rfl, rfl, by decide, by decide, by decide⟩

/-- C4 (amended): the cadence heartbeat is attempted iff strictly more than
`HEARTBEAT_INTERVAL` has elapsed; on a successful send `last_heartbeat`
becomes `now` and the record is transmitted, on a failed send
`last_heartbeat` and the send history are unchanged; and while writable and
not half-closed, `poll` is exactly the identity step followed by this
cadence step. -/
theorem c4_heartbeat_cadence_amended :
    (∀ (srv : Server) (sock : Socket) (now : Nat),
        ((srv.poll_heartbeat sock now).2.2 = true ↔
          HEARTBEAT_INTERVAL < now - srv.last_heartbeat)) ∧
    (∀ (srv : Server) (sock : Socket) (now : Nat),
        HEARTBEAT_INTERVAL < now - srv.last_heartbeat →
        ((send_ok sock = true →
            (srv.poll_heartbeat sock now).1.last_heartbeat = now ∧
            (srv.poll_heartbeat sock now).2.1.tx_log =
              sock.tx_log ++ [heartbeat_bytes srv]) ∧
         (send_ok sock = false →
            (srv.poll_heartbeat sock now).1.last_heartbeat =
              srv.last_heartbeat ∧
            (srv.poll_heartbeat sock now).2.1.tx_log = sock.tx_log))) ∧
    (∀ (srv : Server) (sock : Socket) (now : Nat),
        sock.close_wait = false → sock.can_send = true →
        sock.is_open = true →
        srv.poll sock now =
          (((srv.poll_identity sock).1.poll_heartbeat
              (srv.poll_identity sock).2 now).1,
           ((srv.poll_identity sock).1.poll_heartbeat
              (srv.poll_identity sock).2 now).2.1,
           ⟨false, false, !srv.tx_start,
            ((srv.poll_identity sock).1.poll_heartbeat
              (srv.poll_identity sock).2 now).2.2⟩)) := by
  refine ⟨?_, ?_, ?_⟩
  · intro srv sock now
    unfold Server.poll_heartbeat
    split
    · rename_i hc
      simp [hc]
    · rename_i hc
      simp [hc]
  · intro srv sock now hel
    constructor
    · intro hso
      unfold Server.poll_heartbeat
      rw [if_pos hel]
      constructor
      · simp [write_heartbeat_snd, hso]
      · simp [write_heartbeat_tx_log, hso]
    · intro hso
      unfold Server.poll_heartbeat
      rw [if_pos hel]
      constructor
      · simp [write_heartbeat_snd, hso]
      · simp [write_heartbeat_tx_log, hso]
  · intro srv sock now h1 h2 h3
    have hls : listen_step sock = sock := by
      unfold listen_step
      simp [h3]
    have h := poll_writable_eq srv sock now h1 h2
    rw [hls] at h
    rw [h]
    have hla : (!sock.is_open && !sock.is_listening) = false := by
      rw [h3]
      rfl
    rw [hla]

/-- C4 (amended) witness: with 2000 units elapsed since `last_heartbeat`
zero, the cadence send fires and updates `last_heartbeat`. -/
theorem c4_heartbeat_cadence_amended_witness :
    (srv_base.poll_heartbeat sock_base 2000).1.last_heartbeat = 2000 :=
  ((c4_heartbeat_cadence_amended.2.1 srv_base sock_base 2000
      (by decide)).1 (by decide)).1

theorem poll_tx_start_mono (srv : Server) (sock : Socket) (now : Nat)
    (h : sock.close_wait = false) (ht : srv.tx_start = true) :
    (srv.poll sock now).1.tx_start = true := by
  have hcw : ¬((listen_step sock).close_wait = true) := by
    rw [listen_step_close_wait, h]
    simp
  unfold Server.poll
  rw [if_neg hcw]
  split
  · rw [poll_heartbeat_tx_start, poll_identity_tx_start, ht]
    rfl
  · exact ht

theorem poll_rx_start_pres (srv : Server) (sock : Socket) (now : Nat)
    (h : sock.close_wait = false) :
    (srv.poll sock now).1.rx_start = srv.rx_start := by
  have hcw : ¬((listen_step sock).close_wait = true) := by
    rw [listen_step_close_wait, h]
    simp
  unfold Server.poll
  rw [if_neg hcw]
  split
  · rw [poll_heartbeat_rx_start, poll_identity_rx_start]
  · rfl

theorem send_frame_fst (srv : Server) (sock : Socket) (f : CanFrame) :
    (srv.send_frame sock f).1 = srv := by
  unfold Server.send_frame
  cases hf : Frame.from_frame f with
  | none => rfl
  | some fr =>
      simp only []
      split
      · rfl
      · rfl

theorem recv_frame_fst_no_recv (srv : Server) (sock : Socket)
    (h : sock.can_recv = false) : (srv.recv_frame sock).1 = srv := by
  unfold Server.recv_frame
  rw [h]
  rfl

theorem recv_frame_fst_rx_start (srv : Server) (sock : Socket)
    (h : sock.can_recv = true) : (srv.recv_frame sock).1.rx_start = true := by
  cases hrx : srv.rx_start
  · unfold Server.recv_frame
    rw [if_pos h]
    simp only [hrx, Bool.false_eq_true, if_false]
    split <;> rfl
  · unfold Server.recv_frame
    rw [if_pos h]
    simp only [hrx, if_true]
    split <;> exact hrx

/-- C5: the identity packet is sent at most once per connection: along any
interaction in which the transport never reports half-close, at most one
identity-width record joins the send history (none if the handshake was
already sent); each `poll` attempts the identity send exactly while it is
writable, not half-closed and `tx_start` is false; and the attempt sets
`tx_start` iff the buffered send succeeds, leaving it false on failure so
the next call retries. -/
theorem c5_identity_at_most_once :
    (∀ (srv : Server) (sock : Socket) (steps : List (Stim × Op)),
        (∀ s ∈ steps, s.1.close_wait = false) →
        ident_count (run_trace (srv, sock) steps).2.tx_log ≤
          ident_count sock.tx_log + cond srv.tx_start 0 1) ∧
    (∀ (srv : Server) (sock : Socket) (now : Nat),
        (srv.poll sock now).2.2.identity_attempted =
          (!sock.close_wait && sock.can_send && !srv.tx_start)) ∧
    (∀ (srv : Server) (sock : Socket) (now : Nat),
        sock.close_wait = false → sock.can_send = true →
        srv.tx_start = false →
        ((send_ok sock = true →
            (srv.poll sock now).1.tx_start = true ∧
            ∃ rest, (srv.poll sock now).2.1.tx_log =
              sock.tx_log ++ [identity_bytes srv] ++ rest) ∧
         (send_ok sock = false →
            (srv.poll sock now).1.tx_start = false))) := by
  refine ⟨?_, ?_, ?_⟩
  · intro srv sock steps h
    have hm := ident_measure_run_trace steps (srv, sock) h
    unfold ident_measure at hm
    exact le_trans (Nat.le_add_right _ _) hm
  · intro srv sock now
    unfold Server.poll
    split
    · rename_i hcw
      rw [listen_step_close_wait] at hcw
      simp [hcw]
    · split
      · rename_i hcw hcs
        rw [listen_step_close_wait] at hcw
        rw [listen_step_can_send] at hcs
        simp only [Bool.not_eq_true] at hcw
        simp [hcw, hcs]
      · rename_i hcw hcs
        rw [listen_step_close_wait] at hcw
        rw [listen_step_can_send] at hcs
        simp only [Bool.not_eq_true] at hcw hcs
        simp [hcw, hcs]
  · intro srv sock now h1 h2 h3
    have hpw := poll_writable_eq srv sock now h1 h2
    constructor
    · intro hso
      constructor
      · rw [hpw]
        rw [show ∀ (a : Server) (b : Socket) (c : PollTrace),
              (Prod.mk a (Prod.mk b c)).1 = a from fun _ _ _ => rfl]
        rw [poll_heartbeat_tx_start, poll_identity_tx_start, h3,
          send_ok_listen_step, hso]
        rfl
      · rcases poll_heartbeat_tx_log (srv.poll_identity (listen_step sock)).1
            (srv.poll_identity (listen_step sock)).2 now with hh | hh
        · refine ⟨[], ?_⟩
          rw [hpw]
          rw [show ∀ (a : Server) (b : Socket) (c : PollTrace),
                (Prod.mk a (Prod.mk b c)).2.1 = b from fun _ _ _ => rfl]
          rw [hh, poll_identity_tx_log, h3, send_ok_listen_step, hso,
            listen_step_tx_log]
          simp
        · refine ⟨[heartbeat_bytes (srv.poll_identity (listen_step sock)).1],
            ?_⟩
          rw [hpw]
          rw [show ∀ (a : Server) (b : Socket) (c : PollTrace),
                (Prod.mk a (Prod.mk b c)).2.1 = b from fun _ _ _ => rfl]
          rw [hh, poll_identity_tx_log, h3, send_ok_listen_step, hso,
            listen_step_tx_log]
          simp
    · intro hso
      rw [hpw]
      rw [show ∀ (a : Server) (b : Socket) (c : PollTrace),
            (Prod.mk a (Prod.mk b c)).1 = a from fun _ _ _ => rfl]
      rw [poll_heartbeat_tx_start, poll_identity_tx_start, h3,
        send_ok_listen_step, hso]
      rfl

/-- C5 witness: a one-poll interaction from a fresh session sends the
identity packet at most once. -/
theorem c5_identity_at_most_once_witness :
    ident_count (run_trace (srv_base, sock_base) c5_steps).2.tx_log ≤
      ident_count sock_base.tx_log + cond srv_base.tx_start 0 1 :=
  c5_identity_at_most_once.1 srv_base sock_base c5_steps (by decide)

/-- C10: no operation ever clears `tx_start` or `rx_start` except `poll`
under a reported peer half-close: under any environment-chosen transport
condition whose half-close flag is off (or for any non-`poll` operation),
both flags are monotone; and a receivable `recv_frame` ends with
`rx_start` true unconditionally — even when the priming read's own result
is an error, since that error is discarded. -/
theorem c10_flag_monotone :
    (∀ (srv : Server) (sock : Socket) (st : Stim) (op : Op),
        (st.close_wait && op.is_poll) = false →
        ((srv.tx_start = true →
            (run_step (srv, sock) (st, op)).1.tx_start = true) ∧
         (srv.rx_start = true →
            (run_step (srv, sock) (st, op)).1.rx_start = true))) ∧
    (∀ (srv : Server) (sock : Socket) (st : Stim),
        (apply_stim sock st).can_recv = true →
        (run_step (srv, sock) (st, Op.recv_frame)).1.rx_start = true) := by
  constructor
  · intro srv sock st op h
    cases op with
    | poll now =>
        have hcw : st.close_wait = false := by
          simp [Op.is_poll] at h
          exact h
        have hcw2 : (apply_stim sock st).close_wait = false := hcw
        constructor
        · intro ht
          exact poll_tx_start_mono srv (apply_stim sock st) now hcw2 ht
        · intro hr
          show (srv.poll (apply_stim sock st) now).1.rx_start = true
          rw [poll_rx_start_pres srv (apply_stim sock st) now hcw2]
          exact hr
    | send_heartbeat => exact ⟨fun ht => ht, fun hr => hr⟩
    | send_frame f =>
        have hfst := send_frame_fst srv (apply_stim sock st) f
        constructor
        · intro ht
          show (srv.send_frame (apply_stim sock st) f).1.tx_start = true
          rw [hfst]
          exact ht
        · intro hr
          show (srv.send_frame (apply_stim sock st) f).1.rx_start = true
          rw [hfst]
          exact hr
    | recv_frame =>
        constructor
        · intro ht
          show (srv.recv_frame (apply_stim sock st)).1.tx_start = true
          rw [recv_frame_fst_tx_start]
          exact ht
        · intro hr
          show (srv.recv_frame (apply_stim sock st)).1.rx_start = true
          cases hcr : (apply_stim sock st).can_recv
          · rw [recv_frame_fst_no_recv srv (apply_stim sock st) hcr]
            exact hr
          · exact recv_frame_fst_rx_start srv (apply_stim sock st) hcr
  · intro srv sock st h
    show (srv.recv_frame (apply_stim sock st)).1.rx_start = true
    exact recv_frame_fst_rx_start srv (apply_stim sock st) h

/-- C10 witness: a caller-invoked heartbeat leaves a set `tx_start` set. -/
theorem c10_flag_monotone_witness :
    (run_step (srv_tx, sock_base) (stim_base, Op.send_heartbeat)).1.tx_start =
      true :=
  (c10_flag_monotone.1 srv_tx sock_base stim_base Op.send_heartbeat
      (by decide)).1 (by decide)

end Tritium
